import Mathlib

/-!
# libroboticarm: a shallow embedding of `robotarm.c`

The driver keeps a three byte command buffer (`state[3]`) in a `RobotArmHandle`
and pushes the whole buffer to the device with one USB control transfer
(`robotarm_send`).  Every call into libusb and the C runtime is recorded, in
order, in the `trace` of a `World`; the values those calls return are inputs
carried by the same `World`, so every theorem quantifies over all behaviours of
the USB stack.

C integers are natural numbers: `unsigned char` stores are reduced modulo
`2^8`, the `unsigned int` product of `robotarm_move_timed` modulo `2^32`.
-/

namespace RobotArm

/-! ## Constants (`robotarm.c` lines 16-20, `robotarm.h` lines 35-48 and 71-75) -/

def ROBOTARM_USB_VENDOR : Nat := 0x1267
def ROBOTARM_USB_PRODUCT : Nat := 0
def COMMAND_TIMEOUT_MS : Nat := 500

def ROBOTARM_STOP : Nat := 0
def ROBOTARM_GRIP_CLOSE : Nat := 0x01
def ROBOTARM_GRIP_OPEN : Nat := 0x02
def ROBOTARM_WRIST_UP : Nat := 0x04
def ROBOTARM_WRIST_DOWN : Nat := 0x08
def ROBOTARM_ELBOW_UP : Nat := 0x10
def ROBOTARM_ELBOW_DOWN : Nat := 0x20
def ROBOTARM_SHOULDER_BACK : Nat := 0x40
def ROBOTARM_SHOULDER_FWD : Nat := 0x80
def ROBOTARM_BASE_CW : Nat := 0x0100
def ROBOTARM_BASE_CCW : Nat := 0x0200

def ROBOTARM_LIGHT_OFF : Nat := 0
def ROBOTARM_LIGHT_ON : Nat := 1

/-! ## Data model -/

/-- The struct `RobotArmHandle` of `robotarm.c` lines 23-42.  The two libusb pointers are
plain identifiers; `state0`, `state1`, `state2` are `unsigned char state[3]`. -/
structure RobotArmHandle where
  libusb_context : Nat
  device_handle : Nat
  state0 : Nat
  state1 : Nat
  state2 : Nat
  deriving DecidableEq

/-- The buffer `arm->state` as it is handed to libusb. -/
def RobotArmHandle.state (arm : RobotArmHandle) : List Nat :=
  [arm.state0, arm.state1, arm.state2]

/-- The arguments of one `libusb_control_transfer` call. -/
structure ControlTransfer where
  dev_handle : Nat
  bmRequestType : Nat
  bRequest : Nat
  wValue : Nat
  wIndex : Nat
  data : List Nat
  wLength : Nat
  timeout : Nat
  deriving DecidableEq

/-- One call made by the driver into libusb or the C runtime, with the value it returned
where the driver reads one. -/
inductive Event where
  | libusb_init (ret : Int)
  | libusb_get_device_list (count : Int)
  | libusb_get_device_descriptor (i : Nat) (ret : Int)
  | libusb_open (i : Nat) (ret : Int)
  | libusb_control_transfer (x : ControlTransfer) (ret : Int)
  | libusb_free_device_list
  | libusb_close (dev_handle : Nat)
  | libusb_exit (ctx : Nat)
  | malloc
  | free (arm : RobotArmHandle)
  | usleep (usec : Nat)
  | fprintf_stderr
  deriving DecidableEq

/-- One attached USB device as the driver sees it: what reading its descriptor returns,
the two descriptor fields the driver compares, and what opening it returns. -/
structure USBDevice where
  descriptor_ret : Int
  idVendor : Nat
  idProduct : Nat
  open_ret : Int
  handle : Nat
  deriving DecidableEq

/-- Everything outside the driver.  `init_ret`, `list_ret`, `devices` and `transfer_rets`
are the answers the USB stack will give (`transfer_rets n` is the return value of the
`n`-th control transfer still to come); `trace` is the list of calls made so far, oldest
first. -/
structure World where
  init_ret : Int
  context : Nat
  list_ret : Int
  devices : List USBDevice
  transfer_rets : Nat → Int
  trace : List Event

/-- Append one call to the trace. -/
def World.emit (w : World) (e : Event) : World :=
  { w with trace := w.trace ++ [e] }

/-! ## Observations on a trace -/

/-- The data buffers of the control transfers in a trace, in order. -/
def transmitted (t : List Event) : List (List Nat) :=
  t.filterMap fun e =>
    match e with
    | .libusb_control_transfer x _ => some x.data
    | _ => none

/-- The enumeration indices of the devices on which `libusb_open` was called, in order. -/
def opened (t : List Event) : List Nat :=
  t.filterMap fun e =>
    match e with
    | .libusb_open i _ => some i
    | _ => none

/-- Number of `libusb_init` calls in a trace that succeeded (returned `≥ 0`). -/
def contexts_initialised (t : List Event) : Nat :=
  t.countP fun e =>
    match e with
    | .libusb_init ret => decide (0 ≤ ret)
    | _ => false

/-- Number of `libusb_exit` calls in a trace. -/
def contexts_torn_down (t : List Event) : Nat :=
  t.countP fun e =>
    match e with
    | .libusb_exit _ => true
    | _ => false

/-- Number of `libusb_get_device_list` calls in a trace that succeeded. -/
def lists_obtained (t : List Event) : Nat :=
  t.countP fun e =>
    match e with
    | .libusb_get_device_list count => decide (0 ≤ count)
    | _ => false

/-- Number of `libusb_free_device_list` calls in a trace. -/
def lists_released (t : List Event) : Nat :=
  t.countP fun e =>
    match e with
    | .libusb_free_device_list => true
    | _ => false

/-- Number of `libusb_open` calls in a trace that succeeded (returned 0). -/
def connections_opened (t : List Event) : Nat :=
  t.countP fun e =>
    match e with
    | .libusb_open _ ret => decide (ret = 0)
    | _ => false

/-- Number of `malloc` calls in a trace. -/
def sessions_allocated (t : List Event) : Nat :=
  t.countP fun e =>
    match e with
    | .malloc => true
    | _ => false

/-- The microsecond arguments of the `usleep` calls in a trace, in order. -/
def slept (t : List Event) : List Nat :=
  t.filterMap fun e =>
    match e with
    | .usleep us => some us
    | _ => none

/-! ## The driver -/

/-- The `libusb_control_transfer` call of `robotarm_send`, `robotarm.c` lines 47-56, on
the current contents of `arm`, together with the value `ret` it returned. -/
def control_transfer_call (arm : RobotArmHandle) (ret : Int) : Event :=
  .libusb_control_transfer
    { dev_handle := arm.device_handle, bmRequestType := 0x40, bRequest := 6,
      wValue := 0x100, wIndex := 0, data := arm.state, wLength := 3,
      timeout := COMMAND_TIMEOUT_MS } ret

/-- Source `robotarm_send`, `robotarm.c` lines 45-57: one control transfer of the whole
state buffer; returns what libusb returned. -/
def robotarm_send (arm : RobotArmHandle) (w : World) : Int × World :=
  let ret := w.transfer_rets 0
  (ret,
   { w with
     transfer_rets := fun n => w.transfer_rets (n + 1)
     trace := w.trace ++ [control_transfer_call arm ret] })

/-- Source `robotarm_stop`, `robotarm.c` lines 175-185. -/
def robotarm_stop (arm : RobotArmHandle) (w : World) : RobotArmHandle × World :=
  let arm1 := { arm with state0 := 0, state1 := 0 }
  let r := robotarm_send arm1 w
  if r.1 < 0 then (arm1, r.2.emit .fprintf_stderr) else (arm1, r.2)

/-- Source `robotarm_move`, `robotarm.c` lines 154-166.  `motions` is an `unsigned int`;
the stores into `unsigned char` reduce modulo 256. -/
def robotarm_move (arm : RobotArmHandle) (motions : Nat) (w : World) :
    RobotArmHandle × World :=
  let arm1 := { arm with
    state0 := (motions &&& 0xFF) % 256
    state1 := ((motions >>> 8) &&& 0xFF) % 256 }
  let r := robotarm_send arm1 w
  if r.1 < 0 then robotarm_stop arm1 (r.2.emit .fprintf_stderr) else (arm1, r.2)

/-- Source `robotarm_move_timed`, `robotarm.c` lines 168-173.  The product
`durationMs * 1000` is computed in `unsigned int`, hence modulo `2^32`. -/
def robotarm_move_timed (arm : RobotArmHandle) (motions durationMs : Nat) (w : World) :
    RobotArmHandle × World :=
  let r := robotarm_move arm motions w
  let w1 := r.2.emit (.usleep ((durationMs * 1000) % 2 ^ 32))
  robotarm_stop r.1 w1

/-- Source `robotarm_set_light`, `robotarm.c` lines 187-195.  `onoff` is the integer value
of the `enum RobotArmLight` argument, cast to `unsigned char`. -/
def robotarm_set_light (arm : RobotArmHandle) (onoff : Nat) (w : World) :
    RobotArmHandle × World :=
  let arm1 := { arm with state2 := onoff % 256 }
  let r := robotarm_send arm1 w
  if r.1 < 0 then (arm1, r.2.emit .fprintf_stderr) else (arm1, r.2)

/-- Source `robotarm_close`, `robotarm.c` lines 141-152.  The `free` event carries the
contents of the struct at the moment it is freed. -/
def robotarm_close (arm : RobotArmHandle) (w : World) : World :=
  let r1 := robotarm_stop arm w
  let r2 := robotarm_set_light r1.1 ROBOTARM_LIGHT_OFF r1.2
  let w3 := r2.2.emit (.libusb_close r2.1.device_handle)
  let w4 := w3.emit (.libusb_exit r2.1.libusb_context)
  w4.emit (.free r2.1)

/-- Outcome of the device scan loop of `robotarm_find`: either the loop left the function
through its early `return NULL`, or it ran to its end (or to the `break`) with
`foundDevice` set or still `NULL`. -/
inductive ScanResult where
  | returned_null
  | finished (foundDevice : Option (Nat × USBDevice))
  deriving DecidableEq

/-- The `for` loop of `robotarm_find`, `robotarm.c` lines 84-103, over `devices[i..]`.
A descriptor read failure logs, frees the device list, tears the context down and
returns `NULL`; the first vendor and product match breaks out of the loop. -/
def scan_devices (context : Nat) : List USBDevice → Nat → World → ScanResult × World
  | [], _, w => (.finished none, w)
  | dev :: rest, i, w =>
    let ret := dev.descriptor_ret
    let w1 := w.emit (.libusb_get_device_descriptor i ret)
    if ret < 0 then
      let w2 := w1.emit .fprintf_stderr
      let w3 := w2.emit .libusb_free_device_list
      (.returned_null, w3.emit (.libusb_exit context))
    else if dev.idVendor = ROBOTARM_USB_VENDOR ∧ dev.idProduct = ROBOTARM_USB_PRODUCT then
      (.finished (some (i, dev)), w1)
    else
      scan_devices context rest (i + 1) w1

/-- Source `robotarm_find`, `robotarm.c` lines 59-139.  `libusb_get_device_list` returns
a negative `list_ret` on failure and the number of attached devices otherwise. -/
def robotarm_find (w : World) : Option RobotArmHandle × World :=
  let ret := w.init_ret
  let w1 := w.emit (.libusb_init ret)
  if ret < 0 then
    (none, w1.emit .fprintf_stderr)
  else
    let context := w.context
    let count : Int := if w.list_ret < 0 then w.list_ret else (w.devices.length : Int)
    let w2 := w1.emit (.libusb_get_device_list count)
    if count < 0 then
      let w3 := w2.emit .fprintf_stderr
      (none, w3.emit (.libusb_exit context))
    else
      match scan_devices context w.devices 0 w2 with
      | (.returned_null, w3) => (none, w3)
      | (.finished none, w3) =>
        let w4 := w3.emit .libusb_free_device_list
        (none, w4.emit (.libusb_exit context))
      | (.finished (some (i, foundDevice)), w3) =>
        let ret := foundDevice.open_ret
        let w4 := w3.emit (.libusb_open i ret)
        if ret ≠ 0 then
          let w5 := w4.emit .fprintf_stderr
          let w6 := w5.emit .libusb_free_device_list
          (none, w6.emit (.libusb_exit context))
        else
          let w5 := w4.emit .malloc
          let arm : RobotArmHandle :=
            { libusb_context := context, device_handle := foundDevice.handle,
              state0 := 0, state1 := 0, state2 := ROBOTARM_LIGHT_ON % 256 }
          let r := robotarm_send arm w5
          (some arm, r.2.emit .libusb_free_device_list)

/-! ## Predicates used in the statements -/

/-- The vendor and product test of `robotarm.c` lines 97-98. -/
def is_robot_arm (d : USBDevice) : Prop :=
  d.idVendor = ROBOTARM_USB_VENDOR ∧ d.idProduct = ROBOTARM_USB_PRODUCT

instance (d : USBDevice) : Decidable (is_robot_arm d) := by
  unfold is_robot_arm
  infer_instance

/-- A call that reads a device descriptor. -/
def is_descriptor_read (e : Event) : Prop :=
  ∃ j r, e = .libusb_get_device_descriptor j r

/-! ## Fixtures -/

/-- A world with no device attached in which every libusb call succeeds, every control
transfer returning the 3 bytes written. -/
def quietWorld : World :=
  { init_ret := 0, context := 7, list_ret := 0, devices := [],
    transfer_rets := fun _ => 3, trace := [] }

/-- A world in which every control transfer fails with `LIBUSB_ERROR_IO` (-1). -/
def deafWorld : World :=
  { quietWorld with transfer_rets := fun _ => -1 }

/-- A readable, openable device with vendor `0x1267` and product 5. -/
def otherProduct : USBDevice :=
  { descriptor_ret := 0, idVendor := 0x1267, idProduct := 5, open_ret := 0, handle := 11 }

/-- A readable, openable device with vendor `0x1267` and product 0: the arm. -/
def armDevice : USBDevice :=
  { descriptor_ret := 0, idVendor := 0x1267, idProduct := 0, open_ret := 0, handle := 12 }

/-- The scenario of the specification: two devices of the right vendor, the first with
product 5, the second with product 0; both readable and openable. -/
def twoDevices : List USBDevice :=
  [otherProduct, armDevice]

/-- The two device scenario on a bus whose control transfers all fail. -/
def twoDeviceWorld : World :=
  { deafWorld with devices := twoDevices }

/-- A bus holding a single device of the right vendor but product 5. -/
def strangerWorld : World :=
  { quietWorld with devices := twoDevices.take 1 }

/-- A bus on which the descriptor of the only device cannot be read. -/
def unreadableWorld : World :=
  { quietWorld with
    devices := [{ descriptor_ret := -1, idVendor := 0, idProduct := 0, open_ret := 0,
                  handle := 13 }] }

/-- A handle with the state the arm has right after discovery. -/
def freshArm : RobotArmHandle :=
  { libusb_context := 7, device_handle := 9, state0 := 0, state1 := 0, state2 := 1 }

/-! ## Lemmas on the single operations -/

theorem byte_and_mod (n : Nat) : (n &&& 0xFF) % 256 = n &&& 0xFF :=
  Nat.mod_eq_of_lt (lt_of_le_of_lt Nat.and_le_right (by decide))

theorem transmitted_append (a b : List Event) :
    transmitted (a ++ b) = transmitted a ++ transmitted b := by
  simp [transmitted, List.filterMap_append]

theorem robotarm_stop_fst (arm : RobotArmHandle) (w : World) :
    (robotarm_stop arm w).1 = { arm with state0 := 0, state1 := 0 } := by
  unfold robotarm_stop
  by_cases h : w.transfer_rets 0 < 0 <;> simp [h, robotarm_send]

theorem robotarm_stop_transmitted (arm : RobotArmHandle) (w : World) :
    transmitted (robotarm_stop arm w).2.trace
      = transmitted w.trace ++ [[0, 0, arm.state2]] := by
  unfold robotarm_stop
  by_cases h : w.transfer_rets 0 < 0 <;>
    simp [h, robotarm_send, control_transfer_call, World.emit, transmitted,
      List.filterMap_append, RobotArmHandle.state]

theorem robotarm_set_light_fst (arm : RobotArmHandle) (onoff : Nat) (w : World) :
    (robotarm_set_light arm onoff w).1 = { arm with state2 := onoff % 256 } := by
  unfold robotarm_set_light
  by_cases h : w.transfer_rets 0 < 0 <;> simp [h, robotarm_send]

theorem robotarm_set_light_transmitted (arm : RobotArmHandle) (onoff : Nat) (w : World) :
    transmitted (robotarm_set_light arm onoff w).2.trace
      = transmitted w.trace ++ [[arm.state0, arm.state1, onoff % 256]] := by
  unfold robotarm_set_light
  by_cases h : w.transfer_rets 0 < 0 <;>
    simp [h, robotarm_send, control_transfer_call, World.emit, transmitted,
      List.filterMap_append, RobotArmHandle.state]

theorem robotarm_move_fst (arm : RobotArmHandle) (motions : Nat) (w : World) :
    (robotarm_move arm motions w).1 =
      if w.transfer_rets 0 < 0 then { arm with state0 := 0, state1 := 0 }
      else { arm with state0 := motions &&& 0xFF, state1 := (motions >>> 8) &&& 0xFF } := by
  unfold robotarm_move
  by_cases h : w.transfer_rets 0 < 0
  · simp [h, robotarm_send, robotarm_stop_fst]
  · simp [h, robotarm_send, byte_and_mod]

theorem robotarm_move_transmitted (arm : RobotArmHandle) (motions : Nat) (w : World) :
    transmitted (robotarm_move arm motions w).2.trace =
      transmitted w.trace ++
        [motions &&& 0xFF, (motions >>> 8) &&& 0xFF, arm.state2] ::
          (if w.transfer_rets 0 < 0 then [[0, 0, arm.state2]] else []) := by
  unfold robotarm_move
  by_cases h : w.transfer_rets 0 < 0
  · simp [h, robotarm_send, robotarm_stop_transmitted, World.emit, transmitted_append,
      byte_and_mod, RobotArmHandle.state, control_transfer_call]
    simp [transmitted]
  · simp [h, robotarm_send, transmitted_append, byte_and_mod, RobotArmHandle.state,
      control_transfer_call]
    simp [transmitted]

/-! ## Lemmas on discovery -/

theorem countP_descriptor_reads (p : Event → Bool)
    (hp : ∀ j r, p (.libusb_get_device_descriptor j r) = false) :
    ∀ descs : List Event, (∀ e ∈ descs, is_descriptor_read e) → descs.countP p = 0 := by
  intro descs h
  rw [List.countP_eq_zero]
  intro e he
  obtain ⟨j, r, rfl⟩ := h e he
  simp [hp]

theorem filterMap_descriptor_reads {α : Type} (f : Event → Option α)
    (hf : ∀ j r, f (.libusb_get_device_descriptor j r) = none) :
    ∀ descs : List Event, (∀ e ∈ descs, is_descriptor_read e) → descs.filterMap f = [] := by
  intro descs h
  rw [List.filterMap_eq_nil_iff]
  intro e he
  obtain ⟨j, r, rfl⟩ := h e he
  exact hf j r

/-- Shape of the trace the scan loop leaves: descriptor reads only, followed, on the early
return, by the log line and the two releases. -/
theorem scan_devices_trace (ctx : Nat) :
    ∀ (ds : List USBDevice) (i : Nat) (w : World),
      ∃ descs : List Event, (∀ e ∈ descs, is_descriptor_read e) ∧
        (((scan_devices ctx ds i w).1 = .returned_null ∧
            (scan_devices ctx ds i w).2.trace = w.trace ++ descs ++
              [Event.fprintf_stderr, Event.libusb_free_device_list, Event.libusb_exit ctx]) ∨
         ((∃ r, (scan_devices ctx ds i w).1 = .finished r) ∧
            (scan_devices ctx ds i w).2.trace = w.trace ++ descs)) := by
  intro ds
  induction ds with
  | nil =>
    intro i w
    exact ⟨[], by simp, Or.inr ⟨⟨none, rfl⟩, by simp [scan_devices]⟩⟩
  | cons dev rest ih =>
    intro i w
    unfold scan_devices
    by_cases hret : dev.descriptor_ret < 0
    · refine ⟨[.libusb_get_device_descriptor i dev.descriptor_ret], ?_, Or.inl ?_⟩
      · intro e he
        simp at he
        exact ⟨i, dev.descriptor_ret, he⟩
      · simp [hret, World.emit]
    · by_cases hm : dev.idVendor = ROBOTARM_USB_VENDOR ∧ dev.idProduct = ROBOTARM_USB_PRODUCT
      · refine ⟨[.libusb_get_device_descriptor i dev.descriptor_ret], ?_, Or.inr ?_⟩
        · intro e he
          simp at he
          exact ⟨i, dev.descriptor_ret, he⟩
        · simp [hret, hm, World.emit]
      · obtain ⟨descs, hd, hcase⟩ :=
          ih (i + 1) (w.emit (.libusb_get_device_descriptor i dev.descriptor_ret))
        refine ⟨.libusb_get_device_descriptor i dev.descriptor_ret :: descs, ?_, ?_⟩
        · intro e he
          rcases List.mem_cons.mp he with rfl | he
          · exact ⟨i, dev.descriptor_ret, rfl⟩
          · exact hd e he
        · simp only [hret, hm, if_false]
          simpa [World.emit] using hcase

/-- When no device passes the vendor and product test, the scan finds none. -/
theorem scan_devices_no_match (ctx : Nat) :
    ∀ (ds : List USBDevice) (i : Nat) (w : World), (∀ d ∈ ds, ¬ is_robot_arm d) →
      ∀ x, (scan_devices ctx ds i w).1 ≠ .finished (some x) := by
  intro ds
  induction ds with
  | nil =>
    intro i w _ x
    simp [scan_devices]
  | cons dev rest ih =>
    intro i w hno x
    have hdev : ¬ (dev.idVendor = ROBOTARM_USB_VENDOR ∧ dev.idProduct = ROBOTARM_USB_PRODUCT) :=
      hno dev (List.mem_cons_self _ _)
    unfold scan_devices
    by_cases hret : dev.descriptor_ret < 0
    · simp [hret]
    · simp only [hret, hdev, if_false]
      exact ih _ _ (fun d hd => hno d (List.mem_cons_of_mem _ hd)) x

/-- When the device at position `k` is the first that passes the test and all descriptors
up to it are readable, the scan stops on it. -/
theorem scan_devices_found (ctx : Nat) :
    ∀ (ds : List USBDevice) (i : Nat) (w : World) (k : Nat) (d : USBDevice),
      ds[k]? = some d → is_robot_arm d →
      (∀ j x, j < k → ds[j]? = some x → ¬ is_robot_arm x) →
      (∀ j x, j ≤ k → ds[j]? = some x → 0 ≤ x.descriptor_ret) →
      (scan_devices ctx ds i w).1 = .finished (some (i + k, d)) := by
  intro ds
  induction ds with
  | nil =>
    intro i w k d hk
    simp at hk
  | cons dev rest ih =>
    intro i w k d hk hm hfirst hread
    have hret : ¬ dev.descriptor_ret < 0 :=
      not_lt.mpr (hread 0 dev (Nat.zero_le _) (by simp))
    unfold scan_devices
    cases k with
    | zero =>
      have hd : dev = d := by simpa using hk
      subst hd
      have hm2 : dev.idVendor = ROBOTARM_USB_VENDOR ∧ dev.idProduct = ROBOTARM_USB_PRODUCT := hm
      simp [hret, hm2]
    | succ k =>
      have hdev : ¬ (dev.idVendor = ROBOTARM_USB_VENDOR ∧ dev.idProduct = ROBOTARM_USB_PRODUCT) :=
        hfirst 0 dev (Nat.succ_pos _) (by simp)
      simp only [hret, hdev, if_false]
      have := ih (i + 1) (w.emit (.libusb_get_device_descriptor i dev.descriptor_ret)) k d
        (by simpa using hk) hm
        (fun j x hj hx => hfirst (j + 1) x (Nat.succ_lt_succ hj) (by simpa using hx))
        (fun j x hj hx => hread (j + 1) x (Nat.succ_le_succ hj) (by simpa using hx))
      rw [this]
      congr 3
      omega

theorem device_count_neg_iff (w : World) :
    (if w.list_ret < 0 then w.list_ret else (w.devices.length : Int)) < 0 ↔ w.list_ret < 0 := by
  by_cases h : w.list_ret < 0
  · simp [h]
  · simp only [h, if_false, iff_false, not_lt]
    exact Int.natCast_nonneg _

/-! ## Movement, light and teardown -/

/-- C1, as stated, fails: with motion value 1 (grip close), state `{0, 0, ON}` and a
control transfer that fails, `robotarm_move` returns with motion bytes `(0, 0)`, not
`(1, 0)`, because the failure branch calls `robotarm_stop`. -/
theorem robotarm_move_failed_transfer_clears_motion :
    (1 : Nat) ≤ 0x3FF ∧
    ¬ ((robotarm_move freshArm 1 deafWorld).1.state0 = 1 &&& 0xFF ∧
       (robotarm_move freshArm 1 deafWorld).1.state1 = (1 >>> 8) &&& 0xFF ∧
       (robotarm_move freshArm 1 deafWorld).1.state2 = freshArm.state2) := by
  decide

/-- C1, amended: for every motion value `m` (in particular every `0 ≤ m ≤ 0x3FF`), every
prior state and every outcome of the control transfers, after `robotarm_move arm m` the
light byte is the one from before the call, and the motion bytes are
`(m & 0xFF, (m >> 8) & 0xFF)` when the transfer of the move succeeded (returned a value
`≥ 0`) and `(0, 0)` when it failed. -/
theorem robotarm_move_state (arm : RobotArmHandle) (m : Nat) (w : World) :
    (robotarm_move arm m w).1.state =
      if w.transfer_rets 0 < 0 then [0, 0, arm.state2]
      else [m &&& 0xFF, (m >>> 8) &&& 0xFF, arm.state2] := by
  rw [robotarm_move_fst]
  by_cases h : w.transfer_rets 0 < 0 <;> simp [h, RobotArmHandle.state]

/-- C6: for every motion value, duration, prior state and outcome of the control
transfers, `robotarm_move_timed` returns with motion bytes `(0, 0)` and the light byte
unchanged, and both the handle it leaves and the sequence of buffers it transmits are
those of `robotarm_move` followed by `robotarm_stop`. -/
theorem robotarm_move_timed_is_move_then_stop (arm : RobotArmHandle) (m d : Nat)
    (w : World) :
    (robotarm_move_timed arm m d w).1.state = [0, 0, arm.state2] ∧
    (robotarm_move_timed arm m d w).1
      = (robotarm_stop (robotarm_move arm m w).1 (robotarm_move arm m w).2).1 ∧
    transmitted (robotarm_move_timed arm m d w).2.trace
      = transmitted
          (robotarm_stop (robotarm_move arm m w).1 (robotarm_move arm m w).2).2.trace := by
  unfold robotarm_move_timed
  refine ⟨?_, ?_, ?_⟩
  · simp only [robotarm_stop_fst, robotarm_move_fst]
    by_cases h : w.transfer_rets 0 < 0 <;> simp [h, RobotArmHandle.state]
  · simp only [robotarm_stop_fst]
  · simp only [robotarm_stop_transmitted, World.emit, transmitted_append]
    simp [transmitted]

/-- C7: for every prior state, every light value `v` in `{OFF, ON}` and every outcome of
the control transfers, `robotarm_set_light arm v` sets the light byte to `v` and leaves
both motion bytes unchanged; so `set_light(ON)` followed by `set_light(OFF)` leaves the
motion bytes as they were before either call. -/
theorem robotarm_set_light_frame (arm : RobotArmHandle) (v : Nat) (w : World)
    (hv : v = ROBOTARM_LIGHT_OFF ∨ v = ROBOTARM_LIGHT_ON) :
    (robotarm_set_light arm v w).1.state = [arm.state0, arm.state1, v] ∧
    (robotarm_set_light (robotarm_set_light arm ROBOTARM_LIGHT_ON w).1 ROBOTARM_LIGHT_OFF
        (robotarm_set_light arm ROBOTARM_LIGHT_ON w).2).1.state0 = arm.state0 ∧
    (robotarm_set_light (robotarm_set_light arm ROBOTARM_LIGHT_ON w).1 ROBOTARM_LIGHT_OFF
        (robotarm_set_light arm ROBOTARM_LIGHT_ON w).2).1.state1 = arm.state1 := by
  simp only [robotarm_set_light_fst, RobotArmHandle.state]
  rcases hv with rfl | rfl <;> simp [ROBOTARM_LIGHT_OFF, ROBOTARM_LIGHT_ON]

/-- C7 at a concrete input: light ON on a moving arm whose transfers all fail. -/
theorem robotarm_set_light_frame_witness :
    ((1 : Nat) = ROBOTARM_LIGHT_OFF ∨ (1 : Nat) = ROBOTARM_LIGHT_ON) ∧
    (robotarm_set_light { freshArm with state0 := 5, state2 := 0 } 1 deafWorld).1.state
        = [5, 0, 1] ∧
    (robotarm_set_light
        (robotarm_set_light { freshArm with state0 := 5, state2 := 0 }
          ROBOTARM_LIGHT_ON deafWorld).1 ROBOTARM_LIGHT_OFF
        (robotarm_set_light { freshArm with state0 := 5, state2 := 0 }
          ROBOTARM_LIGHT_ON deafWorld).2).1.state0 = 5 ∧
    (robotarm_set_light
        (robotarm_set_light { freshArm with state0 := 5, state2 := 0 }
          ROBOTARM_LIGHT_ON deafWorld).1 ROBOTARM_LIGHT_OFF
        (robotarm_set_light { freshArm with state0 := 5, state2 := 0 }
          ROBOTARM_LIGHT_ON deafWorld).2).1.state1 = 0 :=
  ⟨Or.inr rfl,
   robotarm_set_light_frame { freshArm with state0 := 5, state2 := 0 } 1 deafWorld
    (Or.inr rfl)⟩

/-- C8, as stated, fails: `robotarm_move arm 0x0104` on state `{0, 0, ON}` transmits
`[0x04, 0x01, 0x01]`, not `[0x05, 0x00, 0x01]`; and grip close combined with wrist up is
`0x05`, not `0x0104`. -/
theorem robotarm_move_0x0104_buffer_is_not_05_00 :
    transmitted (robotarm_move freshArm 0x0104 quietWorld).2.trace
        ≠ [[0x05, 0x00, freshArm.state2]] ∧
    transmitted (robotarm_move freshArm 0x0104 quietWorld).2.trace
        = [[0x04, 0x01, freshArm.state2]] ∧
    ROBOTARM_GRIP_CLOSE ||| ROBOTARM_WRIST_UP ≠ 0x0104 := by
  decide

/-- C8, amended: for every prior state with light byte `L`, the buffer that
`robotarm_move arm 0x0104` transmits is `[0x04, 0x01, L]`, `0x0104` being base clockwise
combined with wrist up; grip close combined with wrist up is `0x05`, and
`robotarm_move arm 0x05` transmits `[0x05, 0x00, L]`.  (When the transfer fails, the
buffer `[0, 0, L]` of the fallback stop follows in either case.) -/
theorem robotarm_move_0x0104_buffer (arm : RobotArmHandle) (w : World) :
    transmitted (robotarm_move arm 0x0104 w).2.trace =
      transmitted w.trace ++ [0x04, 0x01, arm.state2] ::
        (if w.transfer_rets 0 < 0 then [[0, 0, arm.state2]] else []) ∧
    ROBOTARM_BASE_CW ||| ROBOTARM_WRIST_UP = 0x0104 ∧
    ROBOTARM_GRIP_CLOSE ||| ROBOTARM_WRIST_UP = 0x05 ∧
    transmitted (robotarm_move arm 0x05 w).2.trace =
      transmitted w.trace ++ [0x05, 0x00, arm.state2] ::
        (if w.transfer_rets 0 < 0 then [[0, 0, arm.state2]] else []) := by
  refine ⟨?_, by decide, by decide, ?_⟩
  · rw [robotarm_move_transmitted]
    rfl
  · rw [robotarm_move_transmitted]
    rfl

/-- C9, as stated, fails: a `robotarm_move` whose control transfer fails performs two
control transfers, the first carrying `[1, 0, 1]` while the state on return is
`[0, 0, 1]`. -/
theorem robotarm_move_failed_transfer_sends_twice :
    transmitted (robotarm_move freshArm 1 deafWorld).2.trace = [[1, 0, 1], [0, 0, 1]] ∧
    (robotarm_move freshArm 1 deafWorld).1.state = [0, 0, 1] ∧
    (transmitted (robotarm_move freshArm 1 deafWorld).2.trace).length ≠ 1 := by
  decide

/-- C9, amended: for every prior state, argument and outcome of the control transfers,
a call to `robotarm_stop` or to `robotarm_set_light` performs exactly one control
transfer, carrying the whole 3-byte state as it stands when the operation returns; a call
to `robotarm_move` does the same when its transfer succeeds, and when its transfer fails
it performs exactly two: the first carries `(m & 0xFF, (m >> 8) & 0xFF, light)`, the
second, made by the fallback stop, carries the state as it stands on return. -/
theorem one_transfer_of_whole_state (arm : RobotArmHandle) (m v : Nat) (w : World) :
    transmitted (robotarm_stop arm w).2.trace
      = transmitted w.trace ++ [(robotarm_stop arm w).1.state] ∧
    transmitted (robotarm_set_light arm v w).2.trace
      = transmitted w.trace ++ [(robotarm_set_light arm v w).1.state] ∧
    transmitted (robotarm_move arm m w).2.trace
      = transmitted w.trace ++
          (if w.transfer_rets 0 < 0 then
            [[m &&& 0xFF, (m >>> 8) &&& 0xFF, arm.state2], (robotarm_move arm m w).1.state]
           else [(robotarm_move arm m w).1.state]) := by
  refine ⟨?_, ?_, ?_⟩
  · simp [robotarm_stop_transmitted, robotarm_stop_fst, RobotArmHandle.state]
  · simp [robotarm_set_light_transmitted, robotarm_set_light_fst, RobotArmHandle.state]
  · rw [robotarm_move_transmitted, robotarm_move_fst]
    by_cases h : w.transfer_rets 0 < 0 <;> simp [h, RobotArmHandle.state]

/-- C2: for every prior state and every outcome of the two control transfers,
`robotarm_close` first transmits `[0, 0, <prior light>]` (the stop), then `[0, 0, 0]`
(light off), each followed by a log line if it failed, and only then closes the
connection, tears the context down and frees the handle, whose state is `{0, 0, OFF}`
at that moment. -/
theorem robotarm_close_final_state (arm : RobotArmHandle) (w : World) :
    (robotarm_close arm w).trace =
      w.trace
        ++ [control_transfer_call { arm with state0 := 0, state1 := 0 } (w.transfer_rets 0)]
        ++ (if w.transfer_rets 0 < 0 then [Event.fprintf_stderr] else [])
        ++ [control_transfer_call { arm with state0 := 0, state1 := 0, state2 := 0 }
              (w.transfer_rets 1)]
        ++ (if w.transfer_rets 1 < 0 then [Event.fprintf_stderr] else [])
        ++ [Event.libusb_close arm.device_handle, Event.libusb_exit arm.libusb_context,
            Event.free { arm with state0 := 0, state1 := 0, state2 := ROBOTARM_LIGHT_OFF }] ∧
    transmitted (robotarm_close arm w).trace
      = transmitted w.trace ++ [[0, 0, arm.state2], [0, 0, 0]] := by
  constructor
  · unfold robotarm_close robotarm_set_light robotarm_stop
    by_cases h0 : w.transfer_rets 0 < 0 <;> by_cases h1 : w.transfer_rets 1 < 0 <;>
      simp [h0, h1, robotarm_send, World.emit, ROBOTARM_LIGHT_OFF]
  · unfold robotarm_close
    simp [World.emit, transmitted_append, robotarm_set_light_transmitted,
      robotarm_stop_transmitted, robotarm_stop_fst, ROBOTARM_LIGHT_OFF]
    simp [transmitted]

/-- C10 fails on the code: for `durationMs = 4294968`, a 32-bit unsigned value,
`robotarm_move_timed` passes 704 microseconds to `usleep`, not `4294968 * 1000`: the
product wraps modulo `2^32`. -/
theorem robotarm_move_timed_sleep_wraps :
    (4294968 : Nat) < 2 ^ 32 ∧
    slept (robotarm_move_timed freshArm ROBOTARM_WRIST_UP 4294968 quietWorld).2.trace
      = [704] ∧
    (704 : Nat) ≠ 4294968 * 1000 := by
  decide

/-! ## Discovery -/

/-- C4: for every device list (the empty one included) in which no device has both
vendor `0x1267` and product 0, whatever the USB stack answers, `robotarm_find` returns
`NULL`, calls `libusb_open` on no device and makes no control transfer. -/
theorem robotarm_find_no_match (w : World) (hno : ∀ d ∈ w.devices, ¬ is_robot_arm d) :
    (robotarm_find w).1 = none ∧
    opened (robotarm_find w).2.trace = opened w.trace ∧
    transmitted (robotarm_find w).2.trace = transmitted w.trace := by
  unfold robotarm_find
  by_cases hinit : w.init_ret < 0
  · simp [hinit, World.emit, opened, transmitted, List.filterMap_append]
  · simp only [hinit, if_false, device_count_neg_iff]
    by_cases hlist : w.list_ret < 0
    · simp [hlist, World.emit, opened, transmitted, List.filterMap_append]
    · simp only [hlist, if_false]
      generalize hw2 : (w.emit (Event.libusb_init w.init_ret)).emit
        (Event.libusb_get_device_list (w.devices.length : Int)) = w2
      have hw2t : w2.trace = w.trace ++ [Event.libusb_init w.init_ret,
          Event.libusb_get_device_list (w.devices.length : Int)] := by
        rw [← hw2]
        simp [World.emit]
      obtain ⟨descs, hdescs, hcase⟩ := scan_devices_trace w.context w.devices 0 w2
      have hnone := scan_devices_no_match w.context w.devices 0 w2 hno
      have ho := filterMap_descriptor_reads
        (fun e => match e with | .libusb_open i _ => some i | _ => none)
        (fun _ _ => rfl) descs hdescs
      have ht := filterMap_descriptor_reads
        (fun e => match e with | .libusb_control_transfer x _ => some x.data | _ => none)
        (fun _ _ => rfl) descs hdescs
      rcases hs : scan_devices w.context w.devices 0 w2 with ⟨res, w3⟩
      rw [hs] at hcase hnone
      cases res with
      | returned_null =>
        rcases hcase with ⟨_, htr⟩ | ⟨⟨r, hr⟩, _⟩
        · simp only at htr
          simp [htr, hw2t, opened, transmitted, List.filterMap_append, ho, ht]
        · simp at hr
      | finished r =>
        cases r with
        | none =>
          rcases hcase with ⟨hr, _⟩ | ⟨_, htr⟩
          · simp at hr
          · simp only at htr
            simp [htr, hw2t, World.emit, opened, transmitted, List.filterMap_append, ho, ht]
        | some x => exact absurd rfl (hnone x)

/-- C4 at a concrete input: a bus holding one device with vendor `0x1267`, product 5. -/
theorem robotarm_find_no_match_witness :
    (∀ d ∈ strangerWorld.devices, ¬ is_robot_arm d) ∧
    (robotarm_find strangerWorld).1 = none ∧
    opened (robotarm_find strangerWorld).2.trace = opened strangerWorld.trace ∧
    transmitted (robotarm_find strangerWorld).2.trace = transmitted strangerWorld.trace :=
  ⟨by decide, robotarm_find_no_match strangerWorld (by decide)⟩

/-- C3: when context initialisation and enumeration succeed, the device at position `k`
is the first with vendor `0x1267` and product 0, the descriptors up to it are readable
and opening it succeeds, `robotarm_find` calls `libusb_open` on device `k` and on no
other, returns a session on that device with state `{0, 0, ON}`, and makes exactly one
control transfer, with buffer `[0x00, 0x00, 0x01]`; nothing is assumed on the outcome of
that transfer, so the session is returned whether or not it succeeds. -/
theorem robotarm_find_first_match (w : World) (k : Nat) (d : USBDevice)
    (hinit : 0 ≤ w.init_ret) (hlist : 0 ≤ w.list_ret)
    (hk : w.devices[k]? = some d) (hm : is_robot_arm d)
    (hfirst : ∀ j x, j < k → w.devices[j]? = some x → ¬ is_robot_arm x)
    (hread : ∀ j x, j ≤ k → w.devices[j]? = some x → 0 ≤ x.descriptor_ret)
    (hopen : d.open_ret = 0) :
    (robotarm_find w).1 = some
      { libusb_context := w.context, device_handle := d.handle,
        state0 := 0, state1 := 0, state2 := ROBOTARM_LIGHT_ON } ∧
    opened (robotarm_find w).2.trace = opened w.trace ++ [k] ∧
    transmitted (robotarm_find w).2.trace = transmitted w.trace ++ [[0x00, 0x00, 0x01]] := by
  unfold robotarm_find
  have hinit2 : ¬ w.init_ret < 0 := not_lt.mpr hinit
  have hlist2 : ¬ w.list_ret < 0 := not_lt.mpr hlist
  simp only [hinit2, if_false, device_count_neg_iff]
  simp only [hlist2, if_false]
  generalize hw2 : (w.emit (Event.libusb_init w.init_ret)).emit
    (Event.libusb_get_device_list (w.devices.length : Int)) = w2
  have hw2t : w2.trace = w.trace ++ [Event.libusb_init w.init_ret,
      Event.libusb_get_device_list (w.devices.length : Int)] := by
    rw [← hw2]
    simp [World.emit]
  obtain ⟨descs, hdescs, hcase⟩ := scan_devices_trace w.context w.devices 0 w2
  have hfound := scan_devices_found w.context w.devices 0 w2 k d hk hm hfirst hread
  have ho := filterMap_descriptor_reads
    (fun e => match e with | .libusb_open i _ => some i | _ => none)
    (fun _ _ => rfl) descs hdescs
  have ht := filterMap_descriptor_reads
    (fun e => match e with | .libusb_control_transfer x _ => some x.data | _ => none)
    (fun _ _ => rfl) descs hdescs
  rcases hs : scan_devices w.context w.devices 0 w2 with ⟨res, w3⟩
  rw [hs] at hcase hfound
  simp only at hfound
  subst hfound
  rcases hcase with ⟨hr, _⟩ | ⟨_, htr⟩
  · simp at hr
  · simp only at htr
    simp [hopen, htr, hw2t, World.emit, robotarm_send, control_transfer_call,
      RobotArmHandle.state, opened, transmitted, List.filterMap_append, ho, ht,
      ROBOTARM_LIGHT_ON]

/-- C3 at the scenario of the specification: devices `[{0x1267, 5}, {0x1267, 0}]` on a
bus whose control transfers fail; the second device only is opened. -/
theorem robotarm_find_first_match_witness :
    (0 ≤ twoDeviceWorld.init_ret ∧ 0 ≤ twoDeviceWorld.list_ret ∧
      twoDeviceWorld.devices[1]? = some armDevice ∧ is_robot_arm armDevice ∧
      armDevice.open_ret = 0) ∧
    (robotarm_find twoDeviceWorld).1 = some
      { libusb_context := 7, device_handle := 12,
        state0 := 0, state1 := 0, state2 := ROBOTARM_LIGHT_ON } ∧
    opened (robotarm_find twoDeviceWorld).2.trace = opened twoDeviceWorld.trace ++ [1] ∧
    transmitted (robotarm_find twoDeviceWorld).2.trace
      = transmitted twoDeviceWorld.trace ++ [[0x00, 0x00, 0x01]] :=
  ⟨by decide,
   robotarm_find_first_match twoDeviceWorld 1 armDevice
    (by decide) (by decide) (by decide) (by decide)
    (by
      intro j x hj hx
      have hj0 : j = 0 := by omega
      subst hj0
      have hx2 : x = otherProduct := by
        simpa [twoDeviceWorld, twoDevices] using hx.symm
      subst hx2
      decide)
    (by
      intro j x hj hx
      have hj01 : j = 0 ∨ j = 1 := by omega
      rcases hj01 with rfl | rfl
      · have hx2 : x = otherProduct := by
          simpa [twoDeviceWorld, twoDevices] using hx.symm
        subst hx2
        decide
      · have hx2 : x = armDevice := by
          simpa [twoDeviceWorld, twoDevices] using hx.symm
        subst hx2
        decide)
    (by decide)⟩

/-- C5: whatever the USB stack answers, when `robotarm_find` returns `NULL` the calls it
made balance: `libusb_exit` was called once if `libusb_init` succeeded and not at all
otherwise, `libusb_free_device_list` was called once if the device list was obtained and
not at all otherwise, no `libusb_open` succeeded (no connection is open) and no handle
was allocated. -/
theorem robotarm_find_failure_releases (w : World) (hnull : (robotarm_find w).1 = none) :
    contexts_initialised (robotarm_find w).2.trace
      = contexts_initialised w.trace + (if w.init_ret < 0 then 0 else 1) ∧
    contexts_torn_down (robotarm_find w).2.trace
      = contexts_torn_down w.trace + (if w.init_ret < 0 then 0 else 1) ∧
    lists_obtained (robotarm_find w).2.trace
      = lists_obtained w.trace + (if w.init_ret < 0 ∨ w.list_ret < 0 then 0 else 1) ∧
    lists_released (robotarm_find w).2.trace
      = lists_released w.trace + (if w.init_ret < 0 ∨ w.list_ret < 0 then 0 else 1) ∧
    connections_opened (robotarm_find w).2.trace = connections_opened w.trace ∧
    sessions_allocated (robotarm_find w).2.trace = sessions_allocated w.trace := by
  revert hnull
  unfold robotarm_find
  by_cases hinit : w.init_ret < 0
  · intro _
    have hinit2 : ¬ 0 ≤ w.init_ret := not_le.mpr hinit
    simp [hinit, hinit2, World.emit, contexts_initialised, contexts_torn_down,
      lists_obtained, lists_released, connections_opened, sessions_allocated,
      List.countP_append, List.countP_cons]
  · have hinit2 : 0 ≤ w.init_ret := not_lt.mp hinit
    simp only [hinit, if_false, device_count_neg_iff]
    by_cases hlist : w.list_ret < 0
    · intro _
      have hlist2 : ¬ 0 ≤ w.list_ret := not_le.mpr hlist
      simp [hlist, hlist2, hinit2, World.emit, contexts_initialised, contexts_torn_down,
        lists_obtained, lists_released, connections_opened, sessions_allocated,
        List.countP_append, List.countP_cons]
    · simp only [hlist, if_false]
      generalize hw2 : (w.emit (Event.libusb_init w.init_ret)).emit
        (Event.libusb_get_device_list (w.devices.length : Int)) = w2
      have hw2t : w2.trace = w.trace ++ [Event.libusb_init w.init_ret,
          Event.libusb_get_device_list (w.devices.length : Int)] := by
        rw [← hw2]
        simp [World.emit]
      obtain ⟨descs, hdescs, hcase⟩ := scan_devices_trace w.context w.devices 0 w2
      have c1 := countP_descriptor_reads
        (fun e => match e with | .libusb_init ret => decide (0 ≤ ret) | _ => false)
        (fun _ _ => rfl) descs hdescs
      have c2 := countP_descriptor_reads
        (fun e => match e with | .libusb_exit _ => true | _ => false)
        (fun _ _ => rfl) descs hdescs
      have c3 := countP_descriptor_reads
        (fun e => match e with | .libusb_get_device_list c => decide (0 ≤ c) | _ => false)
        (fun _ _ => rfl) descs hdescs
      have c4 := countP_descriptor_reads
        (fun e => match e with | .libusb_free_device_list => true | _ => false)
        (fun _ _ => rfl) descs hdescs
      have c5 := countP_descriptor_reads
        (fun e => match e with | .libusb_open _ ret => decide (ret = 0) | _ => false)
        (fun _ _ => rfl) descs hdescs
      have c6 := countP_descriptor_reads
        (fun e => match e with | .malloc => true | _ => false)
        (fun _ _ => rfl) descs hdescs
      rcases hs : scan_devices w.context w.devices 0 w2 with ⟨res, w3⟩
      rw [hs] at hcase
      cases res with
      | returned_null =>
        intro _
        rcases hcase with ⟨_, htr⟩ | ⟨⟨r, hr⟩, _⟩
        · simp only at htr
          simp [htr, hw2t, hinit, hlist, hinit2, contexts_initialised, contexts_torn_down,
            lists_obtained, lists_released, connections_opened, sessions_allocated,
            List.countP_append, List.countP_cons, c1, c2, c3, c4, c5, c6]
        · simp at hr
      | finished r =>
        rcases hcase with ⟨hr, _⟩ | ⟨_, htr⟩
        · simp at hr
        · simp only at htr
          cases r with
          | none =>
            intro _
            simp [htr, hw2t, hinit, hlist, hinit2, World.emit, contexts_initialised,
              contexts_torn_down, lists_obtained, lists_released, connections_opened,
              sessions_allocated, List.countP_append, List.countP_cons,
              c1, c2, c3, c4, c5, c6]
          | some x =>
            obtain ⟨i, foundDevice⟩ := x
            by_cases hopen : foundDevice.open_ret = 0
            · intro hnull
              simp [hopen] at hnull
            · intro _
              simp [hopen, htr, hw2t, hinit, hlist, hinit2, World.emit,
                contexts_initialised, contexts_torn_down, lists_obtained, lists_released,
                connections_opened, sessions_allocated, List.countP_append,
                List.countP_cons, c1, c2, c3, c4, c5, c6]

/-- C5 at a concrete input: a bus whose only device has an unreadable descriptor. -/
theorem robotarm_find_failure_releases_witness :
    (robotarm_find unreadableWorld).1 = none ∧
    contexts_initialised (robotarm_find unreadableWorld).2.trace = 1 ∧
    contexts_torn_down (robotarm_find unreadableWorld).2.trace = 1 ∧
    lists_obtained (robotarm_find unreadableWorld).2.trace = 1 ∧
    lists_released (robotarm_find unreadableWorld).2.trace = 1 ∧
    connections_opened (robotarm_find unreadableWorld).2.trace = 0 ∧
    sessions_allocated (robotarm_find unreadableWorld).2.trace = 0 :=
  ⟨by decide, robotarm_find_failure_releases unreadableWorld (by decide)⟩

end RobotArm
